import Mathlib

/-!
# OpenAL-Examples: `wav_play` and its error-check helper

A shallow embedding of `src/Examples/common.hpp` (`OAL_ErrorToString`,
`OAL_Check`) and of `src/Examples/wav_play.cpp` (`main`).

The program is a straight-line script over three external libraries (OpenAL,
dr_wav, `std::filesystem`).  Every value the program receives from them is a
field of `Env`, and every call the program makes to them (and every line it
prints) is an `Event` of the run's trace, in program order.  C++ exceptions
(`std::filesystem_error`, `std::bad_alloc`) are outside the model: every
external call is taken to return.
-/

namespace WavPlay

/-! ## Constants of the OpenAL 1.1 header -/

/-- Value of `AL_FALSE` in the OpenAL 1.1 header `AL/al.h`, which the source
includes and the repository does not contain. -/
def AL_FALSE : Int := 0
/-- Value of `AL_NO_ERROR` in `AL/al.h`. -/
def AL_NO_ERROR : Int := 0
/-- Value of `AL_INVALID_NAME` in `AL/al.h`. -/
def AL_INVALID_NAME : Int := 0xA001
/-- Value of `AL_INVALID_ENUM` in `AL/al.h`. -/
def AL_INVALID_ENUM : Int := 0xA002
/-- Value of `AL_INVALID_VALUE` in `AL/al.h`. -/
def AL_INVALID_VALUE : Int := 0xA003
/-- Value of `AL_INVALID_OPERATION` in `AL/al.h`. -/
def AL_INVALID_OPERATION : Int := 0xA004
/-- Value of `AL_OUT_OF_MEMORY` in `AL/al.h`. -/
def AL_OUT_OF_MEMORY : Int := 0xA005
/-- Value of `AL_LOOPING` in `AL/al.h`. -/
def AL_LOOPING : Int := 0x1007
/-- Value of `AL_BUFFER` in `AL/al.h`. -/
def AL_BUFFER : Int := 0x1009
/-- Value of `AL_SOURCE_STATE` in `AL/al.h`. -/
def AL_SOURCE_STATE : Int := 0x1010
/-- Value of `AL_PLAYING` in `AL/al.h`. -/
def AL_PLAYING : Int := 0x1012
/-- Value of `AL_FORMAT_MONO16` in `AL/al.h`. -/
def AL_FORMAT_MONO16 : Int := 0x1101
/-- Value of `AL_FORMAT_STEREO16` in `AL/al.h`. -/
def AL_FORMAT_STEREO16 : Int := 0x1103

/-! ## Machine integers -/

/-- Conversion of an integer to a 32-bit unsigned (`ALuint`): reduction
modulo `2^32`. -/
def toUInt32 (i : Int) : Nat := (i % 4294967296).toNat

/-- Conversion of an unsigned value to a 32-bit signed integer (`ALint`,
`ALsizei`, `ALenum`): the low 32 bits read in two's complement. -/
def toInt32 (n : Nat) : Int :=
  if n % 4294967296 < 2147483648 then ((n % 4294967296 : Nat) : Int)
  else ((n % 4294967296 : Nat) : Int) - 4294967296

/-! ## Traces -/

/-- One observable step of a run: a line printed, a key awaited, or a call
into `std::filesystem`, dr_wav or OpenAL, with the arguments the program
passes. -/
inductive Event where
  /-- Output on `std::cout`: the text of one line, ended by `std::endl`. -/
  | print (line : String)
  /-- The call `std::cin.get()`. -/
  | cinGet
  | fsExists (path : String)
  | fsIsRegularFile (path : String)
  /-- The call `alcOpenDevice(NULL)`. -/
  | alcOpenDevice
  /-- The call `alcCreateContext(device, NULL)`. -/
  | alcCreateContext (device : Nat)
  /-- The call `alcMakeContextCurrent(context)`; `0` is `NULL`. -/
  | alcMakeContextCurrent (context : Nat)
  | drwavOpenFile (filename : String)
  /-- The call `drwav_read_s16(drwav, samplesToRead, data.data())`. -/
  | drwavReadS16 (samplesToRead : Nat)
  | drwavClose
  /-- The call `alGenBuffers(1, &buffer)`. -/
  | alGenBuffers
  /-- The call `alBufferData(buffer, format, data.data(), size, freq)`. -/
  | alBufferData (buffer : Nat) (format : Int) (size : Int) (freq : Int)
  /-- The call `alGenSources(1, &source)`. -/
  | alGenSources
  | alSourcei (source : Nat) (param : Int) (value : Int)
  | alSourcePlay (source : Nat)
  /-- The call `alGetSourcei(source, param, &state)`. -/
  | alGetSourcei (source : Nat) (param : Int)
  | alGetError
  /-- The call `alDeleteSources(1, &source)`. -/
  | alDeleteSources (source : Nat)
  /-- The call `alDeleteBuffers(1, &buffer)`. -/
  | alDeleteBuffers (buffer : Nat)
  | alcDestroyContext (context : Nat)
  | alcCloseDevice (device : Nat)
  deriving DecidableEq, Repr

/-- How the process ends: `main` returns a status, or `std::quick_exit` is
called with one. -/
inductive Exit where
  | returned (code : Int)
  | quickExit (code : Int)
  deriving DecidableEq, Repr

/-! ## `common.hpp` -/

/-- The function `OAL_ErrorToString` of `common.hpp`: the `switch` over the
error code, an `ALuint`. -/
def OAL_ErrorToString (error : Nat) : String :=
  if error = toUInt32 AL_NO_ERROR then "None"
  else if error = toUInt32 AL_INVALID_NAME then "Invalid name"
  else if error = toUInt32 AL_INVALID_ENUM then "Invalid enum"
  else if error = toUInt32 AL_INVALID_VALUE then "Invalid value"
  else if error = toUInt32 AL_INVALID_OPERATION then "Invalid operation"
  else if error = toUInt32 AL_OUT_OF_MEMORY then "Out of memory"
  else "Unknown error"

/-- The function `OAL_Check` of `common.hpp`, given the value `alGetError()`
returns to it (an `ALenum`).  The result is the events of the call and how it
ends: `none` when it returns to its caller, `some x` when it ends the
process. -/
def OAL_Check (str : String) (alGetError : Int) : List Event × Option Exit :=
  let err : Int := alGetError
  if err ≠ AL_NO_ERROR then
    ([Event.alGetError,
      Event.print ("OpenAL check for [" ++ str ++ "] failed, error: "
        ++ OAL_ErrorToString (toUInt32 err) ++ " [" ++ toString err ++ "]"),
      Event.cinGet],
     some (Exit.quickExit (-1)))
  else
    ([Event.alGetError], none)

/-! ## `std::filesystem::path` -/

/-- The member `path::filename()` on the characters of a path in the generic
format: what follows the last directory separator `/` (all of the path when
it has none, nothing when the path ends in one). -/
def filenameChars (p : List Char) : List Char :=
  (p.reverse.takeWhile (fun c => c ≠ '/')).reverse

/-- The member `path::extension()` on the characters of the filename: when
the filename has a period, is neither `.` nor `..`, and its rightmost period
is not its first character, the part from the rightmost period on; nothing
otherwise. -/
def extensionChars (f : List Char) : List Char :=
  if f = ['.'] ∨ f = ['.', '.'] then []
  else
    let tail := (f.reverse.takeWhile (fun c => c ≠ '.')).reverse
    if tail.length = f.length then []
    else if tail.length + 1 = f.length then []
    else '.' :: tail

/-- The expression `std::filesystem::path(filename).extension()`, as the
string of the resulting path. -/
def extension (filename : String) : String :=
  String.mk (extensionChars (filenameChars filename.data))

/-- The expression `std::filesystem::path(filename).has_extension()`: the
extension is not empty. -/
def has_extension (filename : String) : Bool :=
  extension filename ≠ ""

/-! ## The environment of a run -/

/-- The fields of dr_wav's `drwav` object that `main` reads. -/
structure Wav where
  /-- Field `channels`, a 16-bit unsigned. -/
  channels : Nat
  /-- Field `sampleRate`, a 32-bit unsigned. -/
  sampleRate : Nat
  /-- Field `totalSampleCount`, a 64-bit unsigned. -/
  totalSampleCount : Nat
  deriving DecidableEq, Repr

/-- What the external libraries answer during one run of `main`. -/
structure Env where
  /-- Result of `std::filesystem::exists`. -/
  fsExists : String → Bool
  /-- Result of `std::filesystem::is_regular_file`. -/
  fsIsRegularFile : String → Bool
  /-- Handle returned by `alcOpenDevice(NULL)`; `0` is `NULL`. -/
  device : Nat
  /-- Handle returned by `alcCreateContext`; `0` is `NULL`. -/
  context : Nat
  /-- Result of `alcMakeContextCurrent(context)`. -/
  makeCurrent : Bool
  /-- Result of `drwav_open_file`; `none` is `NULL`. -/
  drwav : String → Option Wav
  /-- Value returned by `drwav_read_s16`, a 64-bit unsigned. -/
  read : Nat
  /-- Value of `buffer` after `alGenBuffers(1, &buffer)`. -/
  buffer : Nat
  /-- Value of `source` after `alGenSources(1, &source)`. -/
  source : Nat
  /-- Value returned by the call number `k` (from 0) of `alGetError`. -/
  errors : Nat → Int
  /-- Value of `state` after the call number `k` (from 0) of
  `alGetSourcei(source, AL_SOURCE_STATE, &state)`. -/
  states : Nat → Int

/-- A run of `main`: the events in program order and how the process ended;
`exit = none` when the wait loop was still polling after `fuel` polls. -/
structure Run where
  trace : List Event
  exit : Option Exit
  deriving DecidableEq, Repr

/-- The events `evs` followed by the run `r`. -/
def Run.after (evs : List Event) (r : Run) : Run :=
  ⟨evs ++ r.trace, r.exit⟩

/-- A call of `OAL_Check` followed by the rest of the program: the rest runs
only when the check returns. -/
def Run.checked (c : List Event × Option Exit) (rest : Run) : Run :=
  match c.2 with
  | some x => ⟨c.1, some x⟩
  | none => ⟨c.1 ++ rest.trace, rest.exit⟩

/-- The failure paths of `main`: print `msg`, `std::cin.get()`,
`return -1`. -/
def Run.fail (msg : String) : Run :=
  ⟨[Event.print msg, Event.cinGet], some (Exit.returned (-1))⟩

/-! ## `wav_play.cpp` -/

/-- How the wait loop of `main` ends. -/
inductive LoopEnd where
  /-- The condition `state == AL_PLAYING` failed after `polls` polls. -/
  | left (polls : Nat)
  /-- A check inside the loop ended the process. -/
  | exited (x : Exit)
  /-- The loop was still polling when the fuel ran out. -/
  | running
  deriving DecidableEq, Repr

/-- The loop `while (state == AL_PLAYING)` of `main` (lines 168-171), run for
at most `fuel` iterations.  `polls` counts the iterations done so far:
iteration `polls` makes the call number `polls + 1` of `alGetSourcei` and the
call number `polls + 7` of `alGetError` of the run. -/
def waitLoop (env : Env) (source : Nat) : Nat → Nat → Int → List Event × LoopEnd
  | fuel, polls, state =>
    if state = AL_PLAYING then
      match fuel with
      | 0 => ([], LoopEnd.running)
      | fuel + 1 =>
        let state := env.states (polls + 1)
        match OAL_Check "alGetSourcei - while" (env.errors (polls + 7)) with
        | (evs, some x) =>
          (Event.alGetSourcei source AL_SOURCE_STATE :: evs, LoopEnd.exited x)
        | (evs, none) =>
          let r := waitLoop env source fuel (polls + 1) state
          (Event.alGetSourcei source AL_SOURCE_STATE :: evs ++ r.1, r.2)
    else ([], LoopEnd.left polls)

/-- The function `main` of `wav_play.cpp`.  `argv` are the `argc` strings of
the command line, the program name first; `fuel` bounds the iterations of
the wait loop. -/
def main (fuel : Nat) (argv : List String) (env : Env) : Run :=
  if argv.length < 2 then
    Run.fail "Invalid arguments, no file given"
  else
  let filename : String := argv.getD 1 ""
  if ¬ has_extension filename then
    Run.fail "Invalid arguments, no file extension"
  else if extension filename ≠ ".wav" then
    Run.fail "Invalid arguments, file extension is not WAV"
  else
  Run.after [Event.fsExists filename] <|
  if ¬ env.fsExists filename then
    Run.fail "Invalid arguments, file either doesn\x27t exist or isn\x27t a regular file"
  else
  Run.after [Event.fsIsRegularFile filename] <|
  if ¬ env.fsIsRegularFile filename then
    Run.fail "Invalid arguments, file either doesn\x27t exist or isn\x27t a regular file"
  else
  Run.after [Event.alcOpenDevice] <|
  let device := env.device
  if device = 0 then
    Run.fail "Failed to open OpenAL device"
  else
  Run.after [Event.alcCreateContext device] <|
  let context := env.context
  if context = 0 then
    Run.fail "Failed to create OpenAL context"
  else
  Run.after [Event.alcMakeContextCurrent context] <|
  if ¬ env.makeCurrent then
    Run.fail "Failed to make OpenAL context current"
  else
  Run.after [Event.drwavOpenFile filename] <|
  match env.drwav filename with
  | none => Run.fail "Failed to open file"
  | some drwav =>
  let channels : Nat := drwav.channels
  let samplerate : Nat := drwav.sampleRate
  Run.after [Event.drwavReadS16 drwav.totalSampleCount] <|
  let read : Nat := env.read
  if read = 0 then
    Run.fail "Failed to read file"
  else
  Run.after [Event.drwavClose] <|
  Run.after [Event.print ("[" ++ filename ++ "]"),
             Event.print ("Channels: " ++ toString channels),
             Event.print ("Samplerate: " ++ toString samplerate)] <|
  let byteSize : Nat := 16 >>> 3
  let samples : Nat := read * byteSize % 18446744073709551616
  Run.after [Event.print ("Samples: " ++ toString samples)] <|
  let format : Int := if channels = 2 then AL_FORMAT_STEREO16 else AL_FORMAT_MONO16
  Run.after [Event.alGenBuffers] <|
  let buffer : Nat := env.buffer
  Run.checked (OAL_Check "alGenBuffers" (env.errors 0)) <|
  Run.after [Event.alBufferData buffer format (toInt32 samples) (toInt32 samplerate)] <|
  Run.checked (OAL_Check "alBufferData" (env.errors 1)) <|
  Run.after [Event.alGenSources] <|
  let source : Nat := env.source
  Run.checked (OAL_Check "alGenSources" (env.errors 2)) <|
  Run.after [Event.alSourcei source AL_LOOPING AL_FALSE] <|
  Run.checked (OAL_Check "alSourcei - AL_LOOPING" (env.errors 3)) <|
  Run.after [Event.alSourcei source AL_BUFFER (toInt32 buffer)] <|
  Run.checked (OAL_Check "alSourcei - AL_BUFFER" (env.errors 4)) <|
  Run.after [Event.alSourcePlay source] <|
  Run.checked (OAL_Check "alSourcePlay" (env.errors 5)) <|
  Run.after [Event.alGetSourcei source AL_SOURCE_STATE] <|
  let state : Int := env.states 0
  Run.checked (OAL_Check "alGetSourcei" (env.errors 6)) <|
  if state ≠ AL_PLAYING then
    Run.fail "Failed to play OpenAL source"
  else
  match waitLoop env source fuel 0 state with
  | (evs, LoopEnd.running) => ⟨evs, none⟩
  | (evs, LoopEnd.exited x) => ⟨evs, some x⟩
  | (evs, LoopEnd.left polls) =>
  Run.after evs <|
  Run.after [Event.alDeleteSources source] <|
  Run.checked (OAL_Check "alDeleteSources" (env.errors (polls + 7))) <|
  Run.after [Event.alDeleteBuffers buffer] <|
  Run.checked (OAL_Check "alDeleteBuffers" (env.errors (polls + 8))) <|
  Run.after [Event.alcMakeContextCurrent 0,
             Event.alcDestroyContext context,
             Event.alcCloseDevice device] <|
  ⟨[], some (Exit.returned 0)⟩

/-! ## Vocabulary of the statements -/

/-- The release calls of the teardown: delete source, delete buffer, clear
the current context (`alcMakeContextCurrent(NULL)`), destroy context, close
device. -/
def isRelease : Event → Bool
  | Event.alDeleteSources _ => true
  | Event.alDeleteBuffers _ => true
  | Event.alcMakeContextCurrent context => decide (context = 0)
  | Event.alcDestroyContext _ => true
  | Event.alcCloseDevice _ => true
  | _ => false

/-- The four OpenAL resources `main` acquires. -/
inductive Resource where
  | device
  | context
  | buffer
  | source
  deriving DecidableEq, Repr

/-- The resource a call acquires, if any. -/
def acquires : Event → Option Resource
  | Event.alcOpenDevice => some Resource.device
  | Event.alcCreateContext _ => some Resource.context
  | Event.alGenBuffers => some Resource.buffer
  | Event.alGenSources => some Resource.source
  | _ => none

/-- The resource a call releases, if any. -/
def releases : Event → Option Resource
  | Event.alDeleteSources _ => some Resource.source
  | Event.alDeleteBuffers _ => some Resource.buffer
  | Event.alcDestroyContext _ => some Resource.context
  | Event.alcCloseDevice _ => some Resource.device
  | _ => none

/-- The run with path `filename` passes the argument and file checks, opens
the device, creates the context and makes it current, and the decoder opens
the file as `wav`. -/
structure Opened (filename : String) (env : Env) (wav : Wav) : Prop where
  ext : extension filename = ".wav"
  exist : env.fsExists filename = true
  regular : env.fsIsRegularFile filename = true
  device : env.device ≠ 0
  context : env.context ≠ 0
  current : env.makeCurrent = true
  opened : env.drwav filename = some wav

/-- No call of `alGetError` reports an error. -/
def NoError (env : Env) : Prop := ∀ k, env.errors k = AL_NO_ERROR

/-- The source is reported playing by the poll that follows `alSourcePlay`
and by the `k` polls after it, and not playing by the next one. -/
def Playing (env : Env) (k : Nat) : Prop :=
  (∀ j, j ≤ k → env.states j = AL_PLAYING) ∧ env.states (k + 1) ≠ AL_PLAYING

/-- The events of `n` iterations of the wait loop whose checks pass. -/
def pollEvents (source : Nat) : Nat → List Event
  | 0 => []
  | n + 1 =>
    Event.alGetSourcei source AL_SOURCE_STATE :: Event.alGetError :: pollEvents source n

/-- The events of lines 46-87 when every step succeeds: the file checks, the
device, the context, the decoder opening the file. -/
def setupEvents (filename : String) (env : Env) : List Event :=
  [Event.fsExists filename, Event.fsIsRegularFile filename, Event.alcOpenDevice,
   Event.alcCreateContext env.device, Event.alcMakeContextCurrent env.context,
   Event.drwavOpenFile filename]

/-- The events of lines 109-160 when every check passes: the four lines
printed, the buffer, the upload, the source, its two parameters, the start of
playback and the first poll. -/
def playEvents (filename : String) (env : Env) (wav : Wav) : List Event :=
  [Event.print ("[" ++ filename ++ "]"),
   Event.print ("Channels: " ++ toString wav.channels),
   Event.print ("Samplerate: " ++ toString wav.sampleRate),
   Event.print ("Samples: " ++ toString (env.read * 2 % 18446744073709551616)),
   Event.alGenBuffers, Event.alGetError,
   Event.alBufferData env.buffer
     (if wav.channels = 2 then AL_FORMAT_STEREO16 else AL_FORMAT_MONO16)
     (toInt32 (env.read * 2 % 18446744073709551616)) (toInt32 wav.sampleRate),
   Event.alGetError,
   Event.alGenSources, Event.alGetError,
   Event.alSourcei env.source AL_LOOPING AL_FALSE, Event.alGetError,
   Event.alSourcei env.source AL_BUFFER (toInt32 env.buffer), Event.alGetError,
   Event.alSourcePlay env.source, Event.alGetError,
   Event.alGetSourcei env.source AL_SOURCE_STATE, Event.alGetError]

/-- The events of lines 176-190 when both checks pass. -/
def teardownEvents (env : Env) : List Event :=
  [Event.alDeleteSources env.source, Event.alGetError,
   Event.alDeleteBuffers env.buffer, Event.alGetError,
   Event.alcMakeContextCurrent 0, Event.alcDestroyContext env.context,
   Event.alcCloseDevice env.device]

/-- When the way the run `r` ended satisfies `G`, every event of `r`
satisfies `Q`. -/
def Run.Guarded (G : Option Exit → Prop) (Q : Event → Prop) (r : Run) : Prop :=
  G r.exit → ∀ e ∈ r.trace, Q e

/-- The property `Q` holds of the events that a failure message, a check and
a poll consist of. -/
structure Benign (Q : Event → Prop) : Prop where
  line : ∀ s, Q (Event.print s)
  key : Q Event.cinGet
  check : Q Event.alGetError
  poll : ∀ s p, Q (Event.alGetSourcei s p)

/-- An environment in which every call succeeds and the source is reported
playing by the poll after `alSourcePlay` and by the `playing` polls that
follow it, and stopped (`AL_STOPPED`) from then on. -/
def goodEnv (wav : Wav) (read playing : Nat) : Env where
  fsExists := fun _ => true
  fsIsRegularFile := fun _ => true
  device := 1
  context := 2
  makeCurrent := true
  drwav := fun _ => some wav
  read := read
  buffer := 3
  source := 4
  errors := fun _ => AL_NO_ERROR
  states := fun k => if k ≤ playing then AL_PLAYING else 0x1014

/-- An environment in which the device opens and `alcCreateContext` returns
`NULL`. -/
def noContextEnv : Env where
  fsExists := fun _ => true
  fsIsRegularFile := fun _ => true
  device := 1
  context := 0
  makeCurrent := true
  drwav := fun _ => none
  read := 0
  buffer := 0
  source := 0
  errors := fun _ => AL_NO_ERROR
  states := fun _ => 0

/-- A stereo file of 1000 samples at 44.1 kHz. -/
def demoWav : Wav := ⟨2, 44100, 1000⟩

/-! ## Lemmas on the helper and the combinators -/

theorem argc_two (rest : List String) : ¬ (rest.length + 1 + 1 < 2) := by
  omega

theorem OAL_Check_ok (label : String) :
    OAL_Check label AL_NO_ERROR = ([Event.alGetError], none) := by
  simp [OAL_Check]

theorem OAL_Check_cases (label : String) (e : Int) :
    (e = AL_NO_ERROR ∧ OAL_Check label e = ([Event.alGetError], none)) ∨
    (e ≠ AL_NO_ERROR ∧ ∃ line, OAL_Check label e
      = ([Event.alGetError, Event.print line, Event.cinGet], some (Exit.quickExit (-1)))) := by
  unfold OAL_Check
  by_cases h : e = AL_NO_ERROR
  · left; simp [h]
  · right; exact ⟨h, _, by rw [if_pos h]⟩

theorem checked_ok (label : String) (r : Run) :
    Run.checked (OAL_Check label AL_NO_ERROR) r = Run.after [Event.alGetError] r := by
  simp [OAL_Check_ok, Run.checked, Run.after]

theorem after_after (a b : List Event) (r : Run) :
    Run.after a (Run.after b r) = Run.after (a ++ b) r := by
  simp [Run.after]

theorem guarded_fail {G : Option Exit → Prop} {Q : Event → Prop} (hQ : Benign Q)
    (msg : String) : (Run.fail msg).Guarded G Q := by
  intro _ e he
  simp only [Run.fail, List.mem_cons, List.mem_singleton, List.not_mem_nil, or_false] at he
  rcases he with rfl | rfl
  · exact hQ.line msg
  · exact hQ.key

theorem guarded_after {G : Option Exit → Prop} {Q : Event → Prop} (evs : List Event)
    (r : Run) (hevs : ∀ e ∈ evs, Q e) (hr : r.Guarded G Q) : (Run.after evs r).Guarded G Q := by
  intro hx e he
  simp only [Run.after, List.mem_append] at he hx
  rcases he with he | he
  · exact hevs e he
  · exact hr hx e he

theorem guarded_nil {G : Option Exit → Prop} {Q : Event → Prop} (r : Run)
    (hr : r.Guarded G Q) : (Run.after [] r).Guarded G Q :=
  guarded_after [] r (fun _ he => by cases he) hr

theorem guarded_cons {G : Option Exit → Prop} {Q : Event → Prop} (ev : Event)
    (evs : List Event) (r : Run) (hev : Q ev) (hr : (Run.after evs r).Guarded G Q) :
    (Run.after (ev :: evs) r).Guarded G Q := by
  intro hx e he
  simp only [Run.after, List.cons_append, List.mem_cons] at he hx
  rcases he with rfl | he
  · exact hev
  · exact hr hx e he

theorem guarded_checked {G : Option Exit → Prop} {Q : Event → Prop} (hQ : Benign Q)
    (label : String) (err : Int) (r : Run) (hr : r.Guarded G Q) :
    (Run.checked (OAL_Check label err) r).Guarded G Q := by
  rcases OAL_Check_cases label err with ⟨_, hc⟩ | ⟨_, line, hc⟩
  · intro hx e he
    simp only [Run.checked, hc, List.mem_append, List.mem_singleton] at he hx
    rcases he with rfl | he
    · exact hQ.check
    · exact hr hx e he
  · intro _ e he
    simp only [Run.checked, hc, List.mem_cons, List.mem_singleton, List.not_mem_nil,
      or_false] at he
    rcases he with rfl | rfl | rfl
    · exact hQ.check
    · exact hQ.line line
    · exact hQ.key

theorem guarded_ite {G : Option Exit → Prop} {Q : Event → Prop} (c : Prop) [Decidable c]
    (a b : Run) (ha : c → a.Guarded G Q) (hb : ¬ c → b.Guarded G Q) :
    (if c then a else b).Guarded G Q := by
  by_cases h : c
  · rw [if_pos h]; exact ha h
  · rw [if_neg h]; exact hb h

/-! ## Lemmas on the wait loop -/

theorem waitLoop_benign {Q : Event → Prop} (hQ : Benign Q) (env : Env) (source : Nat) :
    ∀ (fuel polls : Nat) (state : Int),
      ∀ e ∈ (waitLoop env source fuel polls state).1, Q e := by
  intro fuel
  induction fuel with
  | zero =>
    intro polls state
    unfold waitLoop
    split_ifs <;> simp
  | succ n ih =>
    intro polls state
    unfold waitLoop
    split_ifs with h
    · rcases OAL_Check_cases "alGetSourcei - while" (env.errors (polls + 7))
        with ⟨_, hc⟩ | ⟨_, line, hc⟩
      · simp only [hc]
        intro e he
        simp only [List.cons_append, List.nil_append, List.mem_cons] at he
        rcases he with rfl | rfl | he
        · exact hQ.poll _ _
        · exact hQ.check
        · exact ih (polls + 1) (env.states (polls + 1)) e he
      · simp only [hc]
        intro e he
        simp only [List.mem_cons, List.mem_singleton, List.not_mem_nil, or_false] at he
        rcases he with rfl | rfl | rfl | rfl
        · exact hQ.poll _ _
        · exact hQ.check
        · exact hQ.line line
        · exact hQ.key
    · simp

theorem waitLoop_exited (env : Env) (source : Nat) :
    ∀ (fuel polls : Nat) (state : Int) (x : Exit),
      (waitLoop env source fuel polls state).2 = LoopEnd.exited x → x = Exit.quickExit (-1) := by
  intro fuel
  induction fuel with
  | zero =>
    intro polls state x
    unfold waitLoop
    split_ifs <;> simp
  | succ n ih =>
    intro polls state x
    unfold waitLoop
    split_ifs with h
    · rcases OAL_Check_cases "alGetSourcei - while" (env.errors (polls + 7))
        with ⟨_, hc⟩ | ⟨_, line, hc⟩
      · simp only [hc]
        exact ih (polls + 1) (env.states (polls + 1)) x
      · simp only [hc]
        intro hx
        cases hx
        rfl
    · simp

theorem waitLoop_left (env : Env) (source : Nat) :
    ∀ (fuel polls : Nat) (state : Int) (n : Nat),
      (waitLoop env source fuel polls state).2 = LoopEnd.left n →
      (state ≠ AL_PLAYING ∧ n = polls) ∨
      (state = AL_PLAYING ∧ polls < n ∧ env.states n ≠ AL_PLAYING ∧
        ∀ j, polls < j → j < n → env.states j = AL_PLAYING) := by
  intro fuel
  induction fuel with
  | zero =>
    intro polls state n
    unfold waitLoop
    split_ifs with h
    · simp
    · intro hn
      cases hn
      exact Or.inl ⟨h, rfl⟩
  | succ f ih =>
    intro polls state n
    unfold waitLoop
    split_ifs with h
    · rcases OAL_Check_cases "alGetSourcei - while" (env.errors (polls + 7))
        with ⟨_, hc⟩ | ⟨_, line, hc⟩
      · simp only [hc]
        intro hn
        rcases ih (polls + 1) (env.states (polls + 1)) n hn with ⟨hs, rfl⟩ | ⟨hs, hlt, hstop, hplay⟩
        · exact Or.inr ⟨h, Nat.lt_succ_self _, hs, fun j h1 h2 => by omega⟩
        · refine Or.inr ⟨h, by omega, hstop, fun j h1 h2 => ?_⟩
          by_cases hj : j = polls + 1
          · rw [hj]; exact hs
          · exact hplay j (by omega) h2
      · simp [hc]
    · intro hn
      cases hn
      exact Or.inl ⟨h, rfl⟩

theorem waitLoop_polls (env : Env) (source : Nat) (herr : NoError env) :
    ∀ (k fuel polls : Nat),
      (∀ j, j < k → env.states (polls + 1 + j) = AL_PLAYING) →
      env.states (polls + 1 + k) ≠ AL_PLAYING → k < fuel →
      waitLoop env source fuel polls AL_PLAYING
        = (pollEvents source (k + 1), LoopEnd.left (polls + k + 1)) := by
  intro k
  induction k with
  | zero =>
    intro fuel polls _ hstop hfuel
    obtain ⟨f, rfl⟩ : ∃ f, fuel = f + 1 := ⟨fuel - 1, by omega⟩
    have hnext : waitLoop env source f (polls + 1) (env.states (polls + 1))
        = ([], LoopEnd.left (polls + 1)) := by
      cases f <;> simp [waitLoop, (show env.states (polls + 1) ≠ AL_PLAYING from hstop)]
    rw [waitLoop, if_pos rfl, herr, OAL_Check_ok]
    simp [hnext, pollEvents]
  | succ k ih =>
    intro fuel polls hplay hstop hfuel
    obtain ⟨f, rfl⟩ : ∃ f, fuel = f + 1 := ⟨fuel - 1, by omega⟩
    have h1 : env.states (polls + 1) = AL_PLAYING := hplay 0 (by omega)
    have hnext := ih f (polls + 1)
      (fun j hj => by
        have := hplay (j + 1) (by omega)
        rwa [show polls + 1 + 1 + j = polls + 1 + (j + 1) by omega])
      (by rwa [show polls + 1 + 1 + k = polls + 1 + (k + 1) by omega]) (by omega)
    rw [waitLoop, if_pos rfl, herr, OAL_Check_ok]
    simp only [h1, hnext]
    simp [pollEvents]
    omega

theorem pollEvents_filter_release (source : Nat) (n : Nat) :
    (pollEvents source n).filter isRelease = [] := by
  induction n with
  | zero => rfl
  | succ n ih => simp [pollEvents, isRelease, ih]

theorem pollEvents_acquires (source : Nat) (n : Nat) :
    (pollEvents source n).filterMap acquires = [] := by
  induction n with
  | zero => rfl
  | succ n ih => simp [pollEvents, acquires, ih]

theorem pollEvents_releases (source : Nat) (n : Nat) :
    (pollEvents source n).filterMap releases = [] := by
  induction n with
  | zero => rfl
  | succ n ih => simp [pollEvents, releases, ih]

theorem pollEvents_count (source : Nat) (n : Nat) :
    (pollEvents source n).count (Event.alGetSourcei source AL_SOURCE_STATE) = n := by
  induction n with
  | zero => rfl
  | succ n ih => simp [pollEvents, ih]

/-! ## Lemmas on `main` -/

theorem main_success (fuel k : Nat) (prog filename : String) (rest : List String) (env : Env)
    (wav : Wav) (h : Opened filename env wav) (hread : env.read ≠ 0) (herr : NoError env)
    (hplay : Playing env k) (hfuel : k < fuel) :
    main fuel (prog :: filename :: rest) env
      = ⟨setupEvents filename env
          ++ Event.drwavReadS16 wav.totalSampleCount :: Event.drwavClose
            :: playEvents filename env wav
          ++ pollEvents env.source (k + 1) ++ teardownEvents env,
         some (Exit.returned 0)⟩ := by
  have h0 : env.states 0 = AL_PLAYING := hplay.1 0 (Nat.zero_le k)
  have hw := waitLoop_polls env env.source herr k fuel 0
    (fun j hj => hplay.1 (0 + 1 + j) (by omega))
    (by rw [show 0 + 1 + k = k + 1 by omega]; exact hplay.2) hfuel
  simp [main, argc_two, has_extension, h.ext, h.exist, h.regular, h.device, h.context, h.current, h.opened,
    hread, herr _, checked_ok, after_after, h0, hw, setupEvents, playEvents, teardownEvents]
  simp [Run.after, argc_two]

theorem main_not_playing (fuel : Nat) (prog filename : String) (rest : List String) (env : Env)
    (wav : Wav) (h : Opened filename env wav) (hread : env.read ≠ 0) (herr : NoError env)
    (h0 : env.states 0 ≠ AL_PLAYING) :
    main fuel (prog :: filename :: rest) env
      = ⟨setupEvents filename env
          ++ Event.drwavReadS16 wav.totalSampleCount :: Event.drwavClose
            :: playEvents filename env wav
          ++ [Event.print "Failed to play OpenAL source", Event.cinGet],
         some (Exit.returned (-1))⟩ := by
  simp [main, argc_two, has_extension, h.ext, h.exist, h.regular, h.device, h.context, h.current, h.opened,
    hread, herr _, checked_ok, after_after, h0, setupEvents, playEvents, Run.fail]
  simp [Run.after, argc_two]

theorem main_zero_read (fuel : Nat) (prog filename : String) (rest : List String) (env : Env)
    (wav : Wav) (h : Opened filename env wav) (hread : env.read = 0) :
    main fuel (prog :: filename :: rest) env
      = ⟨setupEvents filename env
          ++ [Event.drwavReadS16 wav.totalSampleCount, Event.print "Failed to read file",
              Event.cinGet],
         some (Exit.returned (-1))⟩ := by
  simp [main, argc_two, has_extension, h.ext, h.exist, h.regular, h.device, h.context, h.current, h.opened,
    hread, after_after, setupEvents, Run.fail]
  simp [Run.after, argc_two]

theorem main_read_trace (fuel : Nat) (prog filename : String) (rest : List String) (env : Env)
    (wav : Wav) (h : Opened filename env wav) (hread : env.read ≠ 0) :
    ∃ post, (main fuel (prog :: filename :: rest) env).trace
      = setupEvents filename env
          ++ Event.drwavReadS16 wav.totalSampleCount :: Event.drwavClose :: post := by
  simp [main, argc_two, has_extension, h.ext, h.exist, h.regular, h.device, h.context, h.current, h.opened,
    hread, after_after, setupEvents]
  simp [Run.after, argc_two]

theorem main_upload_trace (fuel : Nat) (prog filename : String) (rest : List String) (env : Env)
    (wav : Wav) (h : Opened filename env wav) (hread : env.read ≠ 0)
    (herr : env.errors 0 = AL_NO_ERROR) :
    ∃ pre post, (main fuel (prog :: filename :: rest) env).trace
      = pre ++ Event.alBufferData env.buffer
          (if wav.channels = 2 then AL_FORMAT_STEREO16 else AL_FORMAT_MONO16)
          (toInt32 (env.read * 2 % 18446744073709551616)) (toInt32 wav.sampleRate) :: post := by
  refine ⟨setupEvents filename env ++ [Event.drwavReadS16 wav.totalSampleCount, Event.drwavClose,
    Event.print ("[" ++ filename ++ "]"),
    Event.print ("Channels: " ++ toString wav.channels),
    Event.print ("Samplerate: " ++ toString wav.sampleRate),
    Event.print ("Samples: " ++ toString (env.read * 2 % 18446744073709551616)),
    Event.alGenBuffers, Event.alGetError], ?_⟩
  simp [main, argc_two, has_extension, h.ext, h.exist, h.regular, h.device, h.context, h.current, h.opened,
    hread, herr, checked_ok, after_after, setupEvents]
  simp [Run.after, argc_two]

theorem benign_noRelease : Benign (fun e => isRelease e = false) :=
  ⟨fun _ => rfl, rfl, rfl, fun _ _ => rfl⟩

theorem main_leaky (fuel : Nat) (argv : List String) (env : Env) :
    (main fuel argv env).Guarded (fun x => x = some (Exit.returned (-1)))
      (fun e => isRelease e = false) := by
  have hQ := benign_noRelease
  unfold main
  dsimp only
  repeat' first
    | with_reducible exact guarded_fail hQ _
    | with_reducible apply guarded_checked hQ
    | with_reducible apply guarded_nil
    | with_reducible refine guarded_cons _ _ _ (by simp [isRelease, *]) ?_
    | with_reducible refine guarded_ite _ _ _ (fun _ => ?_) (fun _ => ?_)
  cases hd : env.drwav (argv.getD 1 "") with
  | none => exact guarded_fail hQ _
  | some wav =>
    dsimp only
    repeat' first
      | with_reducible exact guarded_fail hQ _
      | with_reducible apply guarded_checked hQ
      | with_reducible apply guarded_nil
      | with_reducible refine guarded_cons _ _ _ (by simp [isRelease, *]) ?_
      | with_reducible refine guarded_ite _ _ _ (fun _ => ?_) (fun _ => ?_)
    rcases hw : waitLoop env env.source fuel 0 (env.states 0) with ⟨evs, polls | x | _⟩
    · try dsimp only
      intro hx
      exfalso
      simp only [Run.after, Run.checked] at hx
      rcases OAL_Check_cases "alDeleteSources" (env.errors (polls + 7)) with ⟨_, h1⟩ | ⟨_, l1, h1⟩
      · rcases OAL_Check_cases "alDeleteBuffers" (env.errors (polls + 8)) with ⟨_, h2⟩ | ⟨_, l2, h2⟩
        · simp [h1, h2] at hx
        · simp [h1, h2] at hx
      · simp [h1] at hx
    · try dsimp only
      intro hx
      have := waitLoop_exited env env.source fuel 0 (env.states 0) x (by rw [hw])
      simp [this] at hx
    · try dsimp only
      intro hx
      simp at hx

theorem main_upload_format (fuel : Nat) (argv : List String) (env : Env) (d : Option Wav)
    (hd : env.drwav (argv.getD 1 "") = d) :
    (main fuel argv env).Guarded (fun _ => True)
      (fun e => ∀ b f s q, e = Event.alBufferData b f s q →
        ∃ wav, d = some wav ∧
          f = if wav.channels = 2 then AL_FORMAT_STEREO16 else AL_FORMAT_MONO16) := by
  have hQ : Benign (fun e => ∀ b f s q, e = Event.alBufferData b f s q →
      ∃ wav, d = some wav ∧
        f = if wav.channels = 2 then AL_FORMAT_STEREO16 else AL_FORMAT_MONO16) :=
    ⟨fun _ _ _ _ _ h => (by cases h), fun _ _ _ _ h => (by cases h),
     fun _ _ _ _ h => (by cases h), fun _ _ _ _ _ _ h => (by cases h)⟩
  unfold main
  dsimp only
  repeat' first
    | with_reducible exact guarded_fail hQ _
    | with_reducible apply guarded_checked hQ
    | with_reducible apply guarded_nil
    | with_reducible refine guarded_cons _ _ _ (by intro _ _ _ _ h; cases h) ?_
    | with_reducible refine guarded_ite _ _ _ (fun _ => ?_) (fun _ => ?_)
  rw [hd]
  cases d with
  | none => exact guarded_fail hQ _
  | some wav =>
    dsimp only
    repeat' first
      | with_reducible exact guarded_fail hQ _
      | with_reducible apply guarded_checked hQ
      | with_reducible apply guarded_nil
      | with_reducible refine guarded_cons _ _ _ (by intro _ _ _ _ h; cases h; all_goals exact ⟨_, rfl, rfl⟩) ?_
      | with_reducible refine guarded_ite _ _ _ (fun _ => ?_) (fun _ => ?_)
    rcases hw : waitLoop env env.source fuel 0 (env.states 0) with ⟨evs, polls | x | _⟩
    · try dsimp only
      have hev := waitLoop_benign hQ env env.source fuel 0 (env.states 0)
      rw [hw] at hev
      refine guarded_after _ _ hev ?_
      repeat' first
        | with_reducible apply guarded_checked hQ
        | with_reducible apply guarded_nil
        | with_reducible refine guarded_cons _ _ _ (by intro _ _ _ _ h; cases h) ?_
      intro _ e he
      cases he
    · try dsimp only
      have hev := waitLoop_benign hQ env env.source fuel 0 (env.states 0)
      rw [hw] at hev
      exact fun _ => hev
    · try dsimp only
      have hev := waitLoop_benign hQ env env.source fuel 0 (env.states 0)
      rw [hw] at hev
      exact fun _ => hev

theorem main_release_after_stop (fuel : Nat) (argv : List String) (env : Env) :
    (main fuel argv env).Guarded (fun _ => True)
      (fun e => isRelease e = true →
        ∃ n, 0 < n ∧ env.states n ≠ AL_PLAYING ∧ ∀ j, j < n → env.states j = AL_PLAYING) := by
  have hQ : Benign (fun e => isRelease e = true →
      ∃ n, 0 < n ∧ env.states n ≠ AL_PLAYING ∧ ∀ j, j < n → env.states j = AL_PLAYING) :=
    ⟨fun _ h => (by cases h), fun h => (by cases h), fun h => (by cases h),
     fun _ _ h => (by cases h)⟩
  unfold main
  dsimp only
  repeat' first
    | with_reducible exact guarded_fail hQ _
    | with_reducible apply guarded_checked hQ
    | with_reducible apply guarded_nil
    | with_reducible refine guarded_cons _ _ _ (by simp [isRelease, *]) ?_
    | with_reducible refine guarded_ite _ _ _ (fun _ => ?_) (fun _ => ?_)
  cases hd : env.drwav (argv.getD 1 "") with
  | none => exact guarded_fail hQ _
  | some wav =>
    dsimp only
    repeat' first
      | with_reducible exact guarded_fail hQ _
      | with_reducible apply guarded_checked hQ
      | with_reducible apply guarded_nil
      | with_reducible refine guarded_cons _ _ _ (by simp [isRelease, *]) ?_
      | with_reducible refine guarded_ite _ _ _ (fun _ => ?_) (fun _ => ?_)
    have h0 : env.states 0 = AL_PLAYING := not_not.mp ‹¬ env.states 0 ≠ AL_PLAYING›
    rcases hw : waitLoop env env.source fuel 0 (env.states 0) with ⟨evs, polls | x | _⟩
    · try dsimp only
      have hev := waitLoop_benign hQ env env.source fuel 0 (env.states 0)
      rw [hw] at hev
      have hstop : ∃ n, 0 < n ∧ env.states n ≠ AL_PLAYING ∧
          ∀ j, j < n → env.states j = AL_PLAYING := by
        rcases waitLoop_left env env.source fuel 0 (env.states 0) polls (by rw [hw])
          with ⟨hs, _⟩ | ⟨_, hpos, hs, hplay⟩
        · exact absurd h0 hs
        · refine ⟨polls, hpos, hs, fun j hj => ?_⟩
          by_cases hj0 : j = 0
          · rw [hj0]; exact h0
          · exact hplay j (by omega) hj
      refine guarded_after _ _ hev ?_
      repeat' first
        | with_reducible apply guarded_checked hQ
        | with_reducible apply guarded_nil
        | with_reducible refine guarded_cons _ _ _ (by exact fun _ => hstop) ?_
      intro _ e he
      cases he
    · try dsimp only
      have hev := waitLoop_benign hQ env env.source fuel 0 (env.states 0)
      rw [hw] at hev
      exact fun _ => hev
    · try dsimp only
      have hev := waitLoop_benign hQ env env.source fuel 0 (env.states 0)
      rw [hw] at hev
      exact fun _ => hev

/-! ## The claims -/

/-- Claim C1: whenever the run reaches the upload (the decoder opened the
file with channel count `c`, the read returned samples and `alGenBuffers`
reported no error), the call `alBufferData` is issued, whatever `c` is, and
the format of every `alBufferData` call of the run is `AL_FORMAT_STEREO16` if
and only if `c = 2` and `AL_FORMAT_MONO16` for every other `c`. -/
theorem format_from_channel_count (fuel : Nat) (prog filename : String) (rest : List String) (env : Env)
    (wav : Wav) (c : Nat) (h : Opened filename env wav) (hc : wav.channels = c)
    (hread : env.read ≠ 0) (herr : env.errors 0 = AL_NO_ERROR) :
    (∃ f s q, Event.alBufferData env.buffer f s q
        ∈ (main fuel (prog :: filename :: rest) env).trace) ∧
    (∀ b f s q, Event.alBufferData b f s q ∈ (main fuel (prog :: filename :: rest) env).trace →
      (f = AL_FORMAT_STEREO16 ↔ c = 2) ∧ (c ≠ 2 → f = AL_FORMAT_MONO16)) := by
  constructor
  · obtain ⟨pre, post, hp⟩ := main_upload_trace fuel prog filename rest env wav h hread herr
    refine ⟨if wav.channels = 2 then AL_FORMAT_STEREO16 else AL_FORMAT_MONO16,
      toInt32 (env.read * 2 % 18446744073709551616), toInt32 wav.sampleRate, ?_⟩
    rw [hp]
    exact List.mem_append_right _ (List.mem_cons_self _ _)
  · intro b f s q hmem
    obtain ⟨w, hw, hf⟩ := main_upload_format fuel (prog :: filename :: rest) env _ rfl trivial
      _ hmem b f s q rfl
    have hww : w = wav := by
      have := h.opened
      simp only [List.getD_cons_succ, List.getD_cons_zero] at hw
      rw [this] at hw
      exact (Option.some.inj hw).symm
    subst hww
    subst hc
    by_cases h2 : w.channels = 2
    · simp [hf, h2]
    · simp [hf, h2, AL_FORMAT_MONO16, AL_FORMAT_STEREO16]

/-- Witness of C1: a six-channel file is uploaded as mono-16. -/
theorem format_from_channel_count_witness :
    (∃ f s q, Event.alBufferData 3 f s q
        ∈ (main 1 ["wav_play", "song.wav"] (goodEnv ⟨6, 48000, 600⟩ 600 0)).trace) ∧
    (∀ b f s q, Event.alBufferData b f s q
        ∈ (main 1 ["wav_play", "song.wav"] (goodEnv ⟨6, 48000, 600⟩ 600 0)).trace →
      (f = AL_FORMAT_STEREO16 ↔ 6 = 2) ∧ (6 ≠ 2 → f = AL_FORMAT_MONO16)) :=
  format_from_channel_count 1 "wav_play" "song.wav" [] (goodEnv ⟨6, 48000, 600⟩ 600 0) ⟨6, 48000, 600⟩ 6
    ⟨by decide, rfl, rfl, by decide, by decide, rfl, rfl⟩ rfl (by decide) rfl

/-- Claim C2, at the failing input: for a file of `2^30` samples the decoder
returns `r = 1073741824`, the 64-bit product is `2147483648`, and the size
handed to `alBufferData` is `-2147483648`, not `2 * r`. -/
theorem upload_size_wraps_at_two_pow_30 :
    Event.alBufferData 3 AL_FORMAT_STEREO16 (-2147483648) 44100
      ∈ (main 1 ["wav_play", "song.wav"]
          (goodEnv ⟨2, 44100, 1073741824⟩ 1073741824 0)).trace ∧
    (-2147483648 : Int) ≠ 2 * 1073741824 := by
  decide

/-- The size of the upload is `2 * r` for every non-zero count `r` of samples
read below `2^30`. -/
theorem upload_size_small (fuel : Nat) (prog filename : String) (rest : List String)
    (env : Env) (wav : Wav) (h : Opened filename env wav) (hread : env.read ≠ 0)
    (hsmall : env.read < 1073741824) (herr : env.errors 0 = AL_NO_ERROR) :
    ∃ f q, Event.alBufferData env.buffer f (2 * (env.read : Int)) q
      ∈ (main fuel (prog :: filename :: rest) env).trace := by
  obtain ⟨pre, post, hp⟩ := main_upload_trace fuel prog filename rest env wav h hread herr
  have hsize : toInt32 (env.read * 2 % 18446744073709551616) = 2 * (env.read : Int) := by
    unfold toInt32
    have h1 : env.read * 2 % 18446744073709551616 = env.read * 2 := Nat.mod_eq_of_lt (by omega)
    have h2 : env.read * 2 % 4294967296 = env.read * 2 := Nat.mod_eq_of_lt (by omega)
    rw [h1, h2, if_pos (by omega)]
    push_cast
    ring
  rw [hsize] at hp
  refine ⟨if wav.channels = 2 then AL_FORMAT_STEREO16 else AL_FORMAT_MONO16,
    toInt32 wav.sampleRate, ?_⟩
  rw [hp]
  exact List.mem_append_right _ (List.mem_cons_self _ _)

/-- Counterexample to C3: with two positional arguments, `song.wav` and
`extra`, the run does not print the message and does not return a non-zero
status: it plays the first argument and returns 0. -/
theorem extra_argument_accepted :
    (["wav_play", "song.wav", "extra"].length - 1 ≠ 1) ∧
    (main 1 ["wav_play", "song.wav", "extra"] (goodEnv demoWav 1000 0)).exit
      = some (Exit.returned 0) ∧
    Event.print "Invalid arguments, no file given"
      ∉ (main 1 ["wav_play", "song.wav", "extra"] (goodEnv demoWav 1000 0)).trace ∧
    Event.alcOpenDevice
      ∈ (main 1 ["wav_play", "song.wav", "extra"] (goodEnv demoWav 1000 0)).trace := by
  decide

/-- Claim C3, amended: at least one argument is required.  With no positional
argument (`argc < 2`) `main` prints `Invalid arguments, no file given`, waits
for a key and returns -1 without any call to the file system, the decoder or
the audio API; with two or more, `main` runs as with the first one alone. -/
theorem argument_count_amended (fuel : Nat) (argv : List String) (env : Env) :
    (argv.length < 2 →
      main fuel argv env
        = ⟨[Event.print "Invalid arguments, no file given", Event.cinGet],
           some (Exit.returned (-1))⟩) ∧
    (2 ≤ argv.length → main fuel argv env = main fuel (argv.take 2) env) := by
  constructor
  · intro h
    simp [main, h, Run.fail]
  · intro h
    match argv, h with
    | prog :: filename :: rest, _ =>
      simp [main]

/-- Claim C4: a path whose extension is not exactly `.wav` is rejected with
status -1 before any call to the file system, the decoder or the audio API:
the run consists of one line printed and `std::cin.get()`.  The line is
`Invalid arguments, no file extension` when the path has no extension and
`Invalid arguments, file extension is not WAV` otherwise. -/
theorem wrong_extension_rejected (fuel : Nat) (prog path : String) (rest : List String)
    (env : Env) (hext : extension path ≠ ".wav") :
    main fuel (prog :: path :: rest) env
      = ⟨[Event.print (if extension path = "" then "Invalid arguments, no file extension"
            else "Invalid arguments, file extension is not WAV"),
          Event.cinGet],
         some (Exit.returned (-1))⟩ := by
  by_cases h : extension path = ""
  · simp [main, has_extension, h, Run.fail]
  · simp [main, has_extension, h, hext, Run.fail]

/-- Witness of C4: `song.WAV` and `song.mp3` have an extension other than
`.wav`; `song` and `dir.wav/song` have none. -/
theorem wrong_extension_rejected_witness :
    (extension "song.WAV" = ".WAV" ∧
      main 1 ["wav_play", "song.WAV"] (goodEnv demoWav 1000 0)
        = ⟨[Event.print "Invalid arguments, file extension is not WAV", Event.cinGet],
           some (Exit.returned (-1))⟩) ∧
    (extension "song.mp3" = ".mp3" ∧
      main 1 ["wav_play", "song.mp3"] (goodEnv demoWav 1000 0)
        = ⟨[Event.print "Invalid arguments, file extension is not WAV", Event.cinGet],
           some (Exit.returned (-1))⟩) ∧
    (extension "song" = "" ∧
      main 1 ["wav_play", "song"] (goodEnv demoWav 1000 0)
        = ⟨[Event.print "Invalid arguments, no file extension", Event.cinGet],
           some (Exit.returned (-1))⟩) ∧
    (extension "dir.wav/song" = "" ∧
      main 1 ["wav_play", "dir.wav/song"] (goodEnv demoWav 1000 0)
        = ⟨[Event.print "Invalid arguments, no file extension", Event.cinGet],
           some (Exit.returned (-1))⟩) :=
  ⟨⟨by decide,
    wrong_extension_rejected 1 "wav_play" "song.WAV" [] (goodEnv demoWav 1000 0) (by decide)⟩,
   ⟨by decide,
    wrong_extension_rejected 1 "wav_play" "song.mp3" [] (goodEnv demoWav 1000 0) (by decide)⟩,
   ⟨by decide,
    wrong_extension_rejected 1 "wav_play" "song" [] (goodEnv demoWav 1000 0) (by decide)⟩,
   ⟨by decide,
    wrong_extension_rejected 1 "wav_play" "dir.wav/song" [] (goodEnv demoWav 1000 0)
      (by decide)⟩⟩

/-- Claim C5: on a run that leaves the wait loop with no audio-API error
reported, the release calls are, in this order and once each, delete source,
delete buffer, clear the current context, destroy context, close device; the
resources are released in the reverse of the order device, context, buffer,
source in which they were acquired; and `main` returns 0. -/
theorem teardown_order (fuel k : Nat) (prog filename : String) (rest : List String)
    (env : Env) (wav : Wav) (h : Opened filename env wav) (hread : env.read ≠ 0)
    (herr : NoError env) (hplay : Playing env k) (hfuel : k < fuel) :
    (main fuel (prog :: filename :: rest) env).trace.filter isRelease
      = [Event.alDeleteSources env.source, Event.alDeleteBuffers env.buffer,
         Event.alcMakeContextCurrent 0, Event.alcDestroyContext env.context,
         Event.alcCloseDevice env.device] ∧
    (main fuel (prog :: filename :: rest) env).trace.filterMap acquires
      = [Resource.device, Resource.context, Resource.buffer, Resource.source] ∧
    (main fuel (prog :: filename :: rest) env).trace.filterMap releases
      = ((main fuel (prog :: filename :: rest) env).trace.filterMap acquires).reverse ∧
    (main fuel (prog :: filename :: rest) env).exit = some (Exit.returned 0) := by
  rw [main_success fuel k prog filename rest env wav h hread herr hplay hfuel]
  have hctx := h.context
  refine ⟨?_, ?_, ?_, rfl⟩
  · simp [setupEvents, playEvents, teardownEvents, pollEvents_filter_release, isRelease,
      List.filter_cons, hctx]
  · simp [setupEvents, playEvents, teardownEvents, pollEvents_acquires, acquires,
      List.filterMap_cons, List.filterMap_append]
  · simp [setupEvents, playEvents, teardownEvents, pollEvents_acquires, pollEvents_releases,
      acquires, releases, List.filterMap_cons, List.filterMap_append]

/-- Witness of C5: a run whose source is reported playing by four polls and
stopped by the fifth. -/
theorem teardown_order_witness :
    (main 4 ["wav_play", "song.wav"] (goodEnv demoWav 1000 3)).trace.filter isRelease
      = [Event.alDeleteSources 4, Event.alDeleteBuffers 3,
         Event.alcMakeContextCurrent 0, Event.alcDestroyContext 2,
         Event.alcCloseDevice 1] ∧
    (main 4 ["wav_play", "song.wav"] (goodEnv demoWav 1000 3)).trace.filterMap acquires
      = [Resource.device, Resource.context, Resource.buffer, Resource.source] ∧
    (main 4 ["wav_play", "song.wav"] (goodEnv demoWav 1000 3)).trace.filterMap releases
      = ((main 4 ["wav_play", "song.wav"]
          (goodEnv demoWav 1000 3)).trace.filterMap acquires).reverse ∧
    (main 4 ["wav_play", "song.wav"] (goodEnv demoWav 1000 3)).exit
      = some (Exit.returned 0) :=
  teardown_order 4 3 "wav_play" "song.wav" [] (goodEnv demoWav 1000 3) demoWav
    ⟨by decide, rfl, rfl, by decide, by decide, rfl, rfl⟩ (by decide) (fun _ => rfl)
    ⟨fun j hj => by simp [goodEnv, hj], by decide⟩ (by decide)

/-- Counterexample to C6: when the decoder opens the file and the read
returns zero samples, `main` prints `Failed to read file` and returns -1, and
`drwav_close` is not called. -/
theorem zero_read_not_closed :
    main 1 ["wav_play", "song.wav"] (goodEnv demoWav 0 0)
      = ⟨[Event.fsExists "song.wav", Event.fsIsRegularFile "song.wav", Event.alcOpenDevice,
          Event.alcCreateContext 1, Event.alcMakeContextCurrent 2,
          Event.drwavOpenFile "song.wav", Event.drwavReadS16 1000,
          Event.print "Failed to read file", Event.cinGet],
         some (Exit.returned (-1))⟩ ∧
    Event.drwavClose ∉ (main 1 ["wav_play", "song.wav"] (goodEnv demoWav 0 0)).trace := by
  decide

/-- Claim C6, amended: on a run in which the decoder opened the file, when
the read returns a non-zero count the call after `drwav_read_s16` is
`drwav_close`; when the read returns zero samples `main` prints
`Failed to read file` and returns -1 without closing the handle. -/
theorem decoder_close_amended (fuel : Nat) (prog filename : String) (rest : List String) (env : Env)
    (wav : Wav) (h : Opened filename env wav) :
    (env.read ≠ 0 →
      ∃ post, (main fuel (prog :: filename :: rest) env).trace
        = setupEvents filename env
            ++ Event.drwavReadS16 wav.totalSampleCount :: Event.drwavClose :: post) ∧
    (env.read = 0 →
      main fuel (prog :: filename :: rest) env
        = ⟨setupEvents filename env
            ++ [Event.drwavReadS16 wav.totalSampleCount, Event.print "Failed to read file",
                Event.cinGet],
           some (Exit.returned (-1))⟩ ∧
      Event.drwavClose ∉ (main fuel (prog :: filename :: rest) env).trace) := by
  constructor
  · intro hread
    exact main_read_trace fuel prog filename rest env wav h hread
  · intro hread
    have hm := main_zero_read fuel prog filename rest env wav h hread
    refine ⟨hm, ?_⟩
    rw [hm]
    simp [setupEvents]

/-- Witness of C6 as amended: a run that reads 1000 samples. -/
theorem decoder_close_amended_witness :
    ((goodEnv demoWav 1000 0).read ≠ 0 →
      ∃ post, (main 1 ["wav_play", "song.wav"] (goodEnv demoWav 1000 0)).trace
        = setupEvents "song.wav" (goodEnv demoWav 1000 0)
            ++ Event.drwavReadS16 demoWav.totalSampleCount :: Event.drwavClose :: post) ∧
    ((goodEnv demoWav 1000 0).read = 0 →
      main 1 ["wav_play", "song.wav"] (goodEnv demoWav 1000 0)
        = ⟨setupEvents "song.wav" (goodEnv demoWav 1000 0)
            ++ [Event.drwavReadS16 demoWav.totalSampleCount,
                Event.print "Failed to read file", Event.cinGet],
           some (Exit.returned (-1))⟩ ∧
      Event.drwavClose ∉ (main 1 ["wav_play", "song.wav"] (goodEnv demoWav 1000 0)).trace) :=
  decoder_close_amended 1 "wav_play" "song.wav" [] (goodEnv demoWav 1000 0) demoWav
    ⟨by decide, rfl, rfl, by decide, by decide, rfl, rfl⟩

/-- Claim C7: on a run in which `main` returns -1 after the device has been
opened, no release call (delete source, delete buffer, clear the current
context, destroy context, close device) has been issued. -/
theorem no_release_before_failure (fuel : Nat) (argv : List String) (env : Env)
    (_hdev : Event.alcOpenDevice ∈ (main fuel argv env).trace ∧ env.device ≠ 0)
    (hret : (main fuel argv env).exit = some (Exit.returned (-1))) :
    ∀ e ∈ (main fuel argv env).trace, isRelease e = false :=
  main_leaky fuel argv env hret

/-- Witness of C7: the device opens and the context cannot be created. -/
theorem no_release_before_failure_witness :
    (Event.alcOpenDevice ∈ (main 1 ["wav_play", "song.wav"] noContextEnv).trace
      ∧ noContextEnv.device ≠ 0) ∧
    (main 1 ["wav_play", "song.wav"] noContextEnv).exit = some (Exit.returned (-1)) ∧
    ∀ e ∈ (main 1 ["wav_play", "song.wav"] noContextEnv).trace, isRelease e = false :=
  ⟨by decide, by decide,
   no_release_before_failure 1 ["wav_play", "song.wav"] noContextEnv (by decide) (by decide)⟩

/-- Claim C8: when the last error is `AL_NO_ERROR`, `OAL_Check` prints
nothing and returns; otherwise it prints one line that contains the label,
`OAL_ErrorToString` of the code and the code in decimal, waits for a key and
ends the process with `std::quick_exit(-1)`. -/
theorem OAL_Check_spec (label : String) (e : Int) :
    (e = AL_NO_ERROR → OAL_Check label e = ([Event.alGetError], none)) ∧
    (e ≠ AL_NO_ERROR →
      ∃ line : String,
        OAL_Check label e
          = ([Event.alGetError, Event.print line, Event.cinGet],
             some (Exit.quickExit (-1))) ∧
        line = "OpenAL check for [" ++ label ++ "] failed, error: "
          ++ OAL_ErrorToString (toUInt32 e) ++ " [" ++ toString e ++ "]" ∧
        label.data <:+: line.data ∧
        (OAL_ErrorToString (toUInt32 e)).data <:+: line.data ∧
        (toString e).data <:+: line.data ∧
        (-1 : Int) ≠ 0) := by
  constructor
  · intro h
    simp [OAL_Check, h]
  · intro h
    refine ⟨_, ?_, rfl, ?_, ?_, ?_, by decide⟩
    · simp [OAL_Check, h]
    · exact ⟨"OpenAL check for [".data, ("] failed, error: "
        ++ OAL_ErrorToString (toUInt32 e) ++ " [" ++ toString e ++ "]").data,
        by simp [String.data_append]⟩
    · exact ⟨("OpenAL check for [" ++ label ++ "] failed, error: ").data,
        (" [" ++ toString e ++ "]").data, by simp [String.data_append]⟩
    · exact ⟨("OpenAL check for [" ++ label ++ "] failed, error: "
        ++ OAL_ErrorToString (toUInt32 e) ++ " [").data, "]".data,
        by simp [String.data_append]⟩

/-- Claim C9: `OAL_ErrorToString` is a total fixed table over the six named
codes, and its result is `Unknown error` exactly for the other codes. -/
theorem OAL_ErrorToString_table :
    OAL_ErrorToString (toUInt32 AL_NO_ERROR) = "None" ∧
    OAL_ErrorToString (toUInt32 AL_INVALID_NAME) = "Invalid name" ∧
    OAL_ErrorToString (toUInt32 AL_INVALID_ENUM) = "Invalid enum" ∧
    OAL_ErrorToString (toUInt32 AL_INVALID_VALUE) = "Invalid value" ∧
    OAL_ErrorToString (toUInt32 AL_INVALID_OPERATION) = "Invalid operation" ∧
    OAL_ErrorToString (toUInt32 AL_OUT_OF_MEMORY) = "Out of memory" ∧
    ∀ e : Nat, OAL_ErrorToString e = "Unknown error" ↔
      (e ≠ toUInt32 AL_NO_ERROR ∧ e ≠ toUInt32 AL_INVALID_NAME ∧
       e ≠ toUInt32 AL_INVALID_ENUM ∧ e ≠ toUInt32 AL_INVALID_VALUE ∧
       e ≠ toUInt32 AL_INVALID_OPERATION ∧ e ≠ toUInt32 AL_OUT_OF_MEMORY) := by
  refine ⟨by decide, by decide, by decide, by decide, by decide, by decide, ?_⟩
  intro e
  unfold OAL_ErrorToString
  split_ifs with h1 h2 h3 h4 h5 h6
  · simp [h1]
  · simp [h1, h2]
  · simp [h1, h2, h3]
  · simp [h1, h2, h3, h4]
  · simp [h1, h2, h3, h4, h5]
  · simp [h1, h2, h3, h4, h5, h6]
  · simp [h1, h2, h3, h4, h5, h6]

/-- Claim C10: with no audio-API error reported, a release call is issued
only when some poll after the first returned a state other than `AL_PLAYING`;
when the poll after `alSourcePlay` and the `k` polls that follow return
`AL_PLAYING` and the next one does not, the wait loop makes exactly `k + 1`
polls and `main` goes on to the teardown and returns 0; when the poll after
`alSourcePlay` does not return `AL_PLAYING`, `main` prints
`Failed to play OpenAL source` and returns -1 without polling again. -/
theorem wait_loop_polls (fuel k : Nat) (prog filename : String) (rest : List String)
    (env : Env) (wav : Wav) (h : Opened filename env wav) (hread : env.read ≠ 0)
    (herr : NoError env) :
    ((∃ e ∈ (main fuel (prog :: filename :: rest) env).trace, isRelease e = true) →
      ∃ n, 0 < n ∧ env.states n ≠ AL_PLAYING ∧ ∀ j, j < n → env.states j = AL_PLAYING) ∧
    (Playing env k → k < fuel →
      waitLoop env env.source fuel 0 (env.states 0)
        = (pollEvents env.source (k + 1), LoopEnd.left (k + 1)) ∧
      (pollEvents env.source (k + 1)).count (Event.alGetSourcei env.source AL_SOURCE_STATE)
        = k + 1 ∧
      main fuel (prog :: filename :: rest) env
        = ⟨setupEvents filename env
            ++ Event.drwavReadS16 wav.totalSampleCount :: Event.drwavClose
              :: playEvents filename env wav
            ++ pollEvents env.source (k + 1) ++ teardownEvents env,
           some (Exit.returned 0)⟩) ∧
    (env.states 0 ≠ AL_PLAYING →
      main fuel (prog :: filename :: rest) env
        = ⟨setupEvents filename env
            ++ Event.drwavReadS16 wav.totalSampleCount :: Event.drwavClose
              :: playEvents filename env wav
            ++ [Event.print "Failed to play OpenAL source", Event.cinGet],
           some (Exit.returned (-1))⟩) := by
  refine ⟨?_, ?_, ?_⟩
  · rintro ⟨e, he, hrel⟩
    exact main_release_after_stop fuel (prog :: filename :: rest) env trivial e he hrel
  · intro hplay hfuel
    refine ⟨?_, pollEvents_count _ _, main_success fuel k prog filename rest env wav h hread herr
      hplay hfuel⟩
    have h0 : env.states 0 = AL_PLAYING := hplay.1 0 (Nat.zero_le k)
    have hw := waitLoop_polls env env.source herr k fuel 0
      (fun j hj => hplay.1 (0 + 1 + j) (by omega))
      (by rw [show 0 + 1 + k = k + 1 by omega]; exact hplay.2) hfuel
    rw [h0, hw, show 0 + k + 1 = k + 1 by omega]
  · intro h0
    exact main_not_playing fuel prog filename rest env wav h hread herr h0

/-- Witness of C10: the source is reported playing by the poll after
`alSourcePlay` and by the three polls that follow, and stopped by the next;
the wait loop makes four polls and `main` returns 0. -/
theorem wait_loop_polls_witness :
    Opened "song.wav" (goodEnv demoWav 1000 3) demoWav ∧
    NoError (goodEnv demoWav 1000 3) ∧
    Playing (goodEnv demoWav 1000 3) 3 ∧
    waitLoop (goodEnv demoWav 1000 3) 4 5 0 ((goodEnv demoWav 1000 3).states 0)
      = (pollEvents 4 4, LoopEnd.left 4) ∧
    (pollEvents 4 4).count (Event.alGetSourcei 4 AL_SOURCE_STATE) = 4 ∧
    (main 5 ["wav_play", "song.wav"] (goodEnv demoWav 1000 3)).exit
      = some (Exit.returned 0) :=
  have hopen : Opened "song.wav" (goodEnv demoWav 1000 3) demoWav :=
    ⟨by decide, rfl, rfl, by decide, by decide, rfl, rfl⟩
  have hplay : Playing (goodEnv demoWav 1000 3) 3 :=
    ⟨fun j hj => by simp [goodEnv, hj], by decide⟩
  have hw := (wait_loop_polls 5 3 "wav_play" "song.wav" [] (goodEnv demoWav 1000 3) demoWav
    hopen (by decide) (fun _ => rfl)).2.1 hplay (by decide)
  ⟨hopen, fun _ => rfl, hplay, hw.1, hw.2.1, by rw [hw.2.2]⟩

end WavPlay
